import Mathlib

/-!
# Property Recommendation System — verification of the scoring-and-ranking pipeline

Shallow embedding of the core of the `Recommendation` repository
(`config.py`, `app/services/scoring_service.py`, `app/models/predictor.py`,
`app/services/property_service.py`, `app/services/recommendation_service.py`).

Modelling conventions:
* Python `float`/`int` arithmetic is embedded in `ℚ` (exact rational
  arithmetic); Python integers are `ℤ`/`ℕ`.
* Python dictionaries with `.get(key, default)` access are embedded as
  structures of `Option`-typed fields; `.get` becomes `Option.getD`.
* `datetime.now().year` is an explicit `current_year : ℤ` parameter.
* `np.random.random()` (and the other random draws of property generation)
  are injected as explicit parameters, following the spec's requirement that
  the random source be injectable.
* Python's `round(x, 2)` (round-half-to-even on the scaled value) is
  `round2` below, built from the half-even integer rounding `pyRound`.
* A Python expression that can raise `ZeroDivisionError` is additionally
  embedded in a checked (`Option`-valued) variant, suffixed `E`, where
  `none` is the raised exception.
-/

namespace Config

/-- From `config.py`: `DEFAULT_PROPERTY_COUNT = 20`. -/
def DEFAULT_PROPERTY_COUNT : ℕ := 20

/-- From `config.py`: `DEFAULT_RECOMMENDATIONS = 3`. -/
def DEFAULT_RECOMMENDATIONS : ℕ := 3

/-- The six scoring weights of `config.SCORING_WEIGHTS`, as a record. -/
structure Weights where
  price_match : ℚ
  bedroom : ℚ
  school_rating : ℚ
  commute : ℚ
  property_age : ℚ
  amenities : ℚ

/-- From `config.py`: `SCORING_WEIGHTS = {'price_match': 0.3, 'bedroom': 0.2,
'school_rating': 0.15, 'commute': 0.15, 'property_age': 0.1, 'amenities': 0.1}`. -/
def SCORING_WEIGHTS : Weights :=
  { price_match := 0.3
    bedroom := 0.2
    school_rating := 0.15
    commute := 0.15
    property_age := 0.1
    amenities := 0.1 }

/-- The sum of the six configured scoring weights. -/
def weightsSum : ℚ :=
  SCORING_WEIGHTS.price_match + SCORING_WEIGHTS.bedroom +
    SCORING_WEIGHTS.school_rating + SCORING_WEIGHTS.commute +
    SCORING_WEIGHTS.property_age + SCORING_WEIGHTS.amenities

/-- From `config.py`: `DEFAULT_BUDGET = 500000`. -/
def DEFAULT_BUDGET : ℚ := 500000

/-- From `config.py`: `DEFAULT_MIN_BEDROOMS = 2`. -/
def DEFAULT_MIN_BEDROOMS : ℤ := 2

end Config

/-- Python's `round` to an integer: round half to even (banker's rounding). -/
def pyRound (q : ℚ) : ℤ :=
  if q - ⌊q⌋ < 1/2 then ⌊q⌋
  else if 1/2 < q - ⌊q⌋ then ⌊q⌋ + 1
  else if ⌊q⌋ % 2 = 0 then ⌊q⌋ else ⌊q⌋ + 1

/-- Python's `round(x, 2)`: round to two decimal places, half to even. -/
def round2 (q : ℚ) : ℚ := (pyRound (q * 100) : ℚ) / 100

theorem floor_le_pyRound (q : ℚ) : ⌊q⌋ ≤ pyRound q := by
  unfold pyRound
  split
  · exact le_refl _
  · split
    · omega
    · split
      · exact le_refl _
      · omega

theorem pyRound_le_floor_add_one (q : ℚ) : pyRound q ≤ ⌊q⌋ + 1 := by
  unfold pyRound
  split
  · omega
  · split
    · exact le_refl _
    · split
      · omega
      · exact le_refl _

theorem pyRound_nonneg {q : ℚ} (h : 0 ≤ q) : 0 ≤ pyRound q :=
  le_trans (Int.floor_nonneg.mpr h) (floor_le_pyRound q)

theorem pyRound_le_of_le {q : ℚ} {n : ℤ} (h : q ≤ n) : pyRound q ≤ n := by
  rcases lt_or_eq_of_le (Int.floor_le_floor h) with hf | hf
  · have : ⌊(n : ℚ)⌋ = n := Int.floor_intCast n
    have := pyRound_le_floor_add_one q
    omega
  · -- ⌊q⌋ = ⌊n⌋ = n, so q - ⌊q⌋ = q - n ≤ 0 < 1/2 and pyRound q = ⌊q⌋ = n
    have hn : ⌊q⌋ = n := by rw [hf]; exact Int.floor_intCast n
    have hq : q - ⌊q⌋ < 1/2 := by
      rw [hn]
      have : q - (n : ℚ) ≤ 0 := by linarith
      linarith
    unfold pyRound
    rw [if_pos hq, hn]

/-- Lemma: `round2` maps `[0, 100]` into `[0, 100]`. -/
theorem round2_mem_Icc {q : ℚ} (h0 : 0 ≤ q) (h1 : q ≤ 100) :
    0 ≤ round2 q ∧ round2 q ≤ 100 := by
  unfold round2
  constructor
  · have : (0 : ℤ) ≤ pyRound (q * 100) := pyRound_nonneg (by linarith)
    positivity
  · have h : q * 100 ≤ ((10000 : ℤ) : ℚ) := by push_cast; linarith
    have := pyRound_le_of_le h
    rw [div_le_iff₀ (by norm_num)]
    calc ((pyRound (q * 100) : ℚ)) ≤ (10000 : ℚ) := by exact_mod_cast this
      _ = 100 * 100 := by norm_num

/-- Embedding of a property dictionary (`Dict[str, Any]`): each field the
scoring pipeline reads via `.get`, as an `Option`. Fields not read by the
scoring/prediction/ranking core (`address`, `lot_size` aside, `property_type`,
`image_url`) are omitted where no claim mentions them. -/
structure PropertyD where
  id : Option ℤ := none
  city : Option String := none
  state : Option String := none
  zip_code : Option ℤ := none
  bedrooms : Option ℤ := none
  bathrooms : Option ℤ := none
  square_feet : Option ℤ := none
  year_built : Option ℤ := none
  lot_size : Option ℤ := none
  school_rating : Option ℚ := none
  commute_time : Option ℤ := none
  has_pool : Option Bool := none
  has_garage : Option Bool := none
  has_garden : Option Bool := none
  predicted_price : Option ℚ := none
deriving DecidableEq

/-- Embedding of the user preferences dictionary: `budget` and
`min_bedrooms`, each optional (missing keys fall back to config defaults). -/
structure Preferences where
  budget : Option ℚ := none
  min_bedrooms : Option ℤ := none
deriving DecidableEq

namespace ScoringService

/-- Embeds `scoring_service.py` `calculate_price_match_score`:
`100.0` if `predicted_price <= user_budget`, else
`max(0.0, 100.0 - ((predicted_price - user_budget) / user_budget) * 100)`. -/
def calculate_price_match_score (predicted_price user_budget : ℚ) : ℚ :=
  if predicted_price ≤ user_budget then 100
  else max 0 (100 - ((predicted_price - user_budget) / user_budget) * 100)

/-- Checked variant of `calculate_price_match_score`: the division by
`user_budget` raises `ZeroDivisionError` (→ `none`) when the `else` branch is
taken with `user_budget = 0`. -/
def calculate_price_match_scoreE (predicted_price user_budget : ℚ) : Option ℚ :=
  if predicted_price ≤ user_budget then some 100
  else if user_budget = 0 then none
  else some (max 0 (100 - ((predicted_price - user_budget) / user_budget) * 100))

/-- Embeds `scoring_service.py` `calculate_bedroom_score`: `100.0` if
`property_bedrooms >= user_min_bedrooms`, else
`(property_bedrooms / user_min_bedrooms) * 100` (Python 3 true division). -/
def calculate_bedroom_score (property_bedrooms user_min_bedrooms : ℤ) : ℚ :=
  if property_bedrooms ≥ user_min_bedrooms then 100
  else ((property_bedrooms : ℚ) / (user_min_bedrooms : ℚ)) * 100

/-- Checked variant of `calculate_bedroom_score`: division by zero in the
`else` branch is `none`. -/
def calculate_bedroom_scoreE (property_bedrooms user_min_bedrooms : ℤ) : Option ℚ :=
  if property_bedrooms ≥ user_min_bedrooms then some 100
  else if user_min_bedrooms = 0 then none
  else some (((property_bedrooms : ℚ) / (user_min_bedrooms : ℚ)) * 100)

/-- Embeds `scoring_service.py` `calculate_school_rating_score`:
`(school_rating / 10) * 100`. -/
def calculate_school_rating_score (school_rating : ℚ) : ℚ :=
  school_rating / 10 * 100

/-- Embeds `scoring_service.py` `calculate_commute_score`: `100.0` if
`commute_time <= 15`, `80.0` if `<= 30`, `50.0` if `<= 45`, else `20.0`. -/
def calculate_commute_score (commute_time : ℤ) : ℚ :=
  if commute_time ≤ 15 then 100
  else if commute_time ≤ 30 then 80
  else if commute_time ≤ 45 then 50
  else 20

/-- Embeds `scoring_service.py` `calculate_property_age_score`:
`age = datetime.now().year - year_built`; `100.0` if `age <= 5`, `80.0` if
`<= 15`, `60.0` if `<= 30`, else `40.0`. The clock read `datetime.now().year`
is the explicit parameter `current_year`. -/
def calculate_property_age_score (year_built : ℤ) (current_year : ℤ) : ℚ :=
  let age := current_year - year_built
  if age ≤ 5 then 100
  else if age ≤ 15 then 80
  else if age ≤ 30 then 60
  else 40

/-- Embeds `scoring_service.py` `calculate_amenities_score`:
`(sum([has_pool, has_garage, has_garden]) / 3) * 100`. -/
def calculate_amenities_score (has_pool has_garage has_garden : Bool) : ℚ :=
  (((cond has_pool 1 0 : ℤ) + (cond has_garage 1 0 : ℤ) +
    (cond has_garden 1 0 : ℤ) : ℚ) / 3) * 100

/-- Embeds `scoring_service.py` `calculate_match_score`: extract fields with the
code's `.get` defaults, compute six component scores, take the weighted sum
with `config.SCORING_WEIGHTS`, and `round(total_score, 2)`. -/
def calculate_match_score (property : PropertyD) (preferences : Preferences)
    (current_year : ℤ) : ℚ :=
  let weights := Config.SCORING_WEIGHTS
  let user_budget := preferences.budget.getD Config.DEFAULT_BUDGET
  let predicted_price := property.predicted_price.getD 0
  let property_bedrooms := property.bedrooms.getD 0
  let user_min_bedrooms := preferences.min_bedrooms.getD Config.DEFAULT_MIN_BEDROOMS
  let school_rating := property.school_rating.getD 5
  let commute_time := property.commute_time.getD 30
  let year_built := property.year_built.getD 2000
  let has_pool := property.has_pool.getD false
  let has_garage := property.has_garage.getD false
  let has_garden := property.has_garden.getD false
  let price_match_score := calculate_price_match_score predicted_price user_budget
  let bedroom_score := calculate_bedroom_score property_bedrooms user_min_bedrooms
  let school_rating_score := calculate_school_rating_score school_rating
  let commute_score := calculate_commute_score commute_time
  let property_age_score := calculate_property_age_score year_built current_year
  let amenities_score := calculate_amenities_score has_pool has_garage has_garden
  let total_score :=
    weights.price_match * price_match_score +
    weights.bedroom * bedroom_score +
    weights.school_rating * school_rating_score +
    weights.commute * commute_score +
    weights.property_age * property_age_score +
    weights.amenities * amenities_score
  round2 total_score

/-- Checked variant of `calculate_match_score`: propagates the
`ZeroDivisionError` (`none`) of the two fallible component scores. -/
def calculate_match_scoreE (property : PropertyD) (preferences : Preferences)
    (current_year : ℤ) : Option ℚ := do
  let weights := Config.SCORING_WEIGHTS
  let user_budget := preferences.budget.getD Config.DEFAULT_BUDGET
  let predicted_price := property.predicted_price.getD 0
  let property_bedrooms := property.bedrooms.getD 0
  let user_min_bedrooms := preferences.min_bedrooms.getD Config.DEFAULT_MIN_BEDROOMS
  let school_rating := property.school_rating.getD 5
  let commute_time := property.commute_time.getD 30
  let year_built := property.year_built.getD 2000
  let has_pool := property.has_pool.getD false
  let has_garage := property.has_garage.getD false
  let has_garden := property.has_garden.getD false
  let price_match_score ← calculate_price_match_scoreE predicted_price user_budget
  let bedroom_score ← calculate_bedroom_scoreE property_bedrooms user_min_bedrooms
  let school_rating_score := calculate_school_rating_score school_rating
  let commute_score := calculate_commute_score commute_time
  let property_age_score := calculate_property_age_score year_built current_year
  let amenities_score := calculate_amenities_score has_pool has_garage has_garden
  let total_score :=
    weights.price_match * price_match_score +
    weights.bedroom * bedroom_score +
    weights.school_rating * school_rating_score +
    weights.commute * commute_score +
    weights.property_age * property_age_score +
    weights.amenities * amenities_score
  pure (round2 total_score)

end ScoringService

/-- One clause of `generate_reasoning`'s output. Each constructor is one of
the `reasons.append(...)` sites of `scoring_service.py`, carrying the data
interpolated into its f-string (the exact decimal/comma rendering of numbers
is abstracted; the clause identity and payload are kept). -/
inductive Clause where
  | excellentValue (price budget : ℚ)
  | comfortableFit (budget price : ℚ)
  | slightlyAbove (price : ℚ)
  | aboveBudget (price : ℚ)
  | meetsBedrooms (min_bedrooms bedrooms : ℤ)
  | excellentSchool (rating : ℚ)
  | goodSchool (rating : ℚ)
  | shortCommute (minutes : ℤ)
  | reasonableCommute (minutes : ℤ)
  | recentlyBuilt (year : ℤ)
  | modernHome (year : ℤ)
  | establishedProperty (year : ℤ)
  | amenityList (has_pool has_garage has_garden : Bool)
  | location (city state : String)
  | genericFallback
deriving DecidableEq

namespace ScoringService

/-- Embeds `scoring_service.py` `generate_reasoning`: builds the ordered clause list
(budget framing, bedroom adequacy, school tiers, commute tiers, age tiers,
amenities, location), joined in the code with `"; "`; returns the generic
fallback when no clause qualifies. The `score` parameter is accepted but, as
in the source, never read. The clock read is `current_year`. -/
def generate_reasoning (property : PropertyD) (preferences : Preferences)
    (score : ℚ) (current_year : ℤ) : List Clause :=
  let budget := preferences.budget.getD Config.DEFAULT_BUDGET
  let price := property.predicted_price.getD 0
  let budget_clauses : List Clause :=
    if price ≤ budget then
      if price ≤ budget * 0.9 then [Clause.excellentValue price budget]
      else [Clause.comfortableFit budget price]
    else if price ≤ budget * 1.1 then [Clause.slightlyAbove price]
    else [Clause.aboveBudget price]
  let bedrooms := property.bedrooms.getD 0
  let min_bedrooms := preferences.min_bedrooms.getD Config.DEFAULT_MIN_BEDROOMS
  let bedroom_clauses : List Clause :=
    if bedrooms ≥ min_bedrooms then [Clause.meetsBedrooms min_bedrooms bedrooms] else []
  let school_rating := property.school_rating.getD 5
  let school_clauses : List Clause :=
    if school_rating ≥ 8 then [Clause.excellentSchool school_rating]
    else if school_rating ≥ 6 then [Clause.goodSchool school_rating]
    else []
  let commute_time := property.commute_time.getD 30
  let commute_clauses : List Clause :=
    if commute_time ≤ 15 then [Clause.shortCommute commute_time]
    else if commute_time ≤ 30 then [Clause.reasonableCommute commute_time]
    else []
  let year_built := property.year_built.getD 2000
  let age := current_year - year_built
  let age_clauses : List Clause :=
    if age ≤ 5 then [Clause.recentlyBuilt year_built]
    else if age ≤ 15 then [Clause.modernHome year_built]
    else if age ≤ 30 then [Clause.establishedProperty year_built]
    else []
  let has_pool := property.has_pool.getD false
  let has_garage := property.has_garage.getD false
  let has_garden := property.has_garden.getD false
  let amenity_clauses : List Clause :=
    if has_pool || has_garage || has_garden then
      [Clause.amenityList has_pool has_garage has_garden]
    else []
  let city := property.city.getD ""
  let state := property.state.getD ""
  let location_clauses : List Clause :=
    if city ≠ "" ∧ state ≠ "" then [Clause.location city state] else []
  let reasons := budget_clauses ++ bedroom_clauses ++ school_clauses ++
    commute_clauses ++ age_clauses ++ amenity_clauses ++ location_clauses
  if reasons.isEmpty then [Clause.genericFallback] else reasons

end ScoringService

/-- Embeds `predictor.py` `PricePredictor`: the optionally loaded model (embedded as
a function from the six-feature vector to a result, where `Except.error` is a
raised exception) and the `model_loaded` flag. -/
structure PricePredictor where
  model : Option (List ℚ → Except String ℚ)
  model_loaded : Bool

namespace PricePredictor

/-- Embeds `predictor.py` `predict_fallback`: `200000 + bedrooms*50000 +
bathrooms*30000 + (square_feet-1500)*100`, times `1 + (zip_code % 100)/1000`
when `zip_code` is truthy (non-zero), times the noise factor
`0.9 + np.random.random() * 0.2` (the random sample is the injected
`random_sample`), floored by `max(price, 50000)`. -/
def predict_fallback (self : PricePredictor) (property_data : PropertyD)
    (random_sample : ℚ) : ℚ :=
  let base_price : ℚ := 200000
  let price := base_price + (property_data.bedrooms.getD 2 : ℚ) * 50000
  let price := price + (property_data.bathrooms.getD 1 : ℚ) * 30000
  let sqft := property_data.square_feet.getD 1500
  let price := price + ((sqft : ℚ) - 1500) * 100
  let zip_code := property_data.zip_code.getD 0
  let price :=
    if zip_code ≠ 0 then price * (1 + ((zip_code % 100 : ℤ) : ℚ) / 1000)
    else price
  let price := price * (0.9 + random_sample * 0.2)
  max price 50000

/-- Embeds `predictor.py` `predict`: the six features `[bedrooms, bathrooms,
square_feet, year_built, zip_code, lot_size]` extracted with their `.get`
defaults, in the model's fixed order. -/
def features (property_data : PropertyD) : List ℚ :=
  [(property_data.bedrooms.getD 2 : ℚ),
   (property_data.bathrooms.getD 1 : ℚ),
   (property_data.square_feet.getD 1500 : ℚ),
   (property_data.year_built.getD 2000 : ℚ),
   (property_data.zip_code.getD 0 : ℚ),
   (property_data.lot_size.getD 5000 : ℚ)]

/-- Embeds `predictor.py` `predict`: when `model_loaded and model is not None`, call
the model on the feature vector; a raised exception falls back (for this one
call) to `predict_fallback`; otherwise use `predict_fallback` directly. -/
def predict (self : PricePredictor) (property_data : PropertyD)
    (random_sample : ℚ) : ℚ :=
  if self.model_loaded then
    match self.model with
    | some m =>
      match m (features property_data) with
      | Except.ok prediction => prediction
      | Except.error _ => self.predict_fallback property_data random_sample
    | none => self.predict_fallback property_data random_sample
  else self.predict_fallback property_data random_sample

end PricePredictor

namespace PropertyService

/-- Embeds `property_service.py` `generate_properties`: build `count` properties.
The random attribute draws of iteration `i` are injected as `draw i` (their
distributions and ranges are not needed by any claim); the loop then sets
`id = i + 1`, predicts the price with `price_predictor.predict`, and stores
`round(predicted_price, 2)`. `random_sample i` is the noise sample consumed
by a fallback prediction at iteration `i`. -/
def generate_properties (count : ℕ) (draw : ℕ → PropertyD)
    (price_predictor : PricePredictor) (random_sample : ℕ → ℚ) : List PropertyD :=
  (List.range count).map (fun i =>
    let property_data := { draw i with id := some ((i : ℤ) + 1) }
    { property_data with
        predicted_price :=
          some (round2 (price_predictor.predict property_data (random_sample i))) })

end PropertyService

/-- One entry of `scored_properties` in `recommendation_service.py`:
`{**prop, 'match_score': round(score, 2), 'reasoning': reasoning}`. -/
structure ScoredProperty where
  property : PropertyD
  match_score : ℚ
  reasoning : List Clause
deriving DecidableEq

/-- The dictionary returned by `get_recommendations`. -/
structure RecommendationResult where
  success : Bool
  recommendations : List ScoredProperty
  total_properties_evaluated : ℕ
  model_used : Bool

/-- Stable insertion step of `sortByDesc`: `x` is placed before the first
element whose key does not exceed `key x` (so, among equal keys, before
later-generated elements). -/
def insertByDesc (key : ScoredProperty → ℚ) (x : ScoredProperty) :
    List ScoredProperty → List ScoredProperty
  | [] => [x]
  | h :: t => if key h ≤ key x then x :: h :: t else h :: insertByDesc key x t

/-- Embedding of Python's `list.sort(key=..., reverse=True)`: a stable
descending sort (CPython's Timsort is stable, and `reverse=True` inverts the
key comparison without disturbing ties). Stable insertion sort is
extensionally the same function on any list. -/
def sortByDesc (key : ScoredProperty → ℚ) : List ScoredProperty → List ScoredProperty
  | [] => []
  | x :: xs => insertByDesc key x (sortByDesc key xs)

namespace RecommendationService

/-- Embeds `recommendation_service.py` `get_recommendations`: default the two count
arguments from config, generate `property_count` properties, score and
explain each, sort stably by `match_score` descending, truncate to
`num_recommendations`, and return the result dictionary
(`total_properties_evaluated = len(properties)`,
`model_used = price_predictor.model_loaded`). -/
def get_recommendations (preferences : Preferences)
    (property_count : Option ℕ) (num_recommendations : Option ℕ)
    (draw : ℕ → PropertyD) (price_predictor : PricePredictor)
    (random_sample : ℕ → ℚ) (current_year : ℤ) : RecommendationResult :=
  let property_count := property_count.getD Config.DEFAULT_PROPERTY_COUNT
  let num_recommendations := num_recommendations.getD Config.DEFAULT_RECOMMENDATIONS
  let properties :=
    PropertyService.generate_properties property_count draw price_predictor random_sample
  let scored_properties := properties.map (fun prop =>
    let score := ScoringService.calculate_match_score prop preferences current_year
    let reasoning := ScoringService.generate_reasoning prop preferences score current_year
    { property := prop, match_score := round2 score, reasoning := reasoning })
  let sorted := sortByDesc (fun s => s.match_score) scored_properties
  { success := true
    recommendations := sorted.take num_recommendations
    total_properties_evaluated := properties.length
    model_used := price_predictor.model_loaded }

end RecommendationService

/-- The generation-order index of a scored property: the 1-based `id`
assigned sequentially by `generate_properties`. -/
def generationId (s : ScoredProperty) : ℤ := s.property.id.getD 0

/-- The ranking order `get_recommendations` must deliver: non-increasing
`match_score`, and among equal scores increasing generation id (stability). -/
def rankedBefore (a b : ScoredProperty) : Prop :=
  b.match_score ≤ a.match_score ∧
    (a.match_score = b.match_score → generationId a < generationId b)

theorem mem_insertByDesc (key : ScoredProperty → ℚ) (x y : ScoredProperty) :
    ∀ l : List ScoredProperty, y ∈ insertByDesc key x l ↔ y = x ∨ y ∈ l := by
  intro l
  induction l with
  | nil => simp [insertByDesc]
  | cons h t ih =>
    unfold insertByDesc
    split
    · simp
    · simp only [List.mem_cons, ih]
      tauto

theorem length_insertByDesc (key : ScoredProperty → ℚ) (x : ScoredProperty) :
    ∀ l : List ScoredProperty, (insertByDesc key x l).length = l.length + 1 := by
  intro l
  induction l with
  | nil => rfl
  | cons h t ih =>
    unfold insertByDesc
    split
    · rfl
    · simp [List.length_cons, ih]

theorem length_sortByDesc (key : ScoredProperty → ℚ) :
    ∀ l : List ScoredProperty, (sortByDesc key l).length = l.length := by
  intro l
  induction l with
  | nil => rfl
  | cons h t ih => simp [sortByDesc, length_insertByDesc, ih]

theorem mem_sortByDesc (key : ScoredProperty → ℚ) (y : ScoredProperty) :
    ∀ l : List ScoredProperty, y ∈ sortByDesc key l ↔ y ∈ l := by
  intro l
  induction l with
  | nil => simp [sortByDesc]
  | cons h t ih =>
    simp only [sortByDesc, mem_insertByDesc, ih, List.mem_cons]

theorem pairwise_insertByDesc (x : ScoredProperty) :
    ∀ l : List ScoredProperty, l.Pairwise rankedBefore →
      (∀ y ∈ l, generationId x < generationId y) →
      (insertByDesc (fun s => s.match_score) x l).Pairwise rankedBefore := by
  intro l
  induction l with
  | nil => intro _ _; simp [insertByDesc, List.pairwise_cons]
  | cons h t ih =>
    intro hp hidx
    rw [List.pairwise_cons] at hp
    unfold insertByDesc
    split
    · -- h.match_score ≤ x.match_score: x goes first
      rename_i hle
      rw [List.pairwise_cons]
      refine ⟨?_, List.pairwise_cons.mpr hp⟩
      intro z hz
      rcases List.mem_cons.mp hz with hz | hz
      · rw [hz]
        exact ⟨hle, fun _ => hidx h (List.mem_cons_self h t)⟩
      · have hhz := hp.1 z hz
        refine ⟨le_trans hhz.1 hle, fun _ => hidx z (List.mem_cons_of_mem h hz)⟩
    · -- x.match_score < h.match_score: h stays first
      rename_i hlt
      push_neg at hlt
      rw [List.pairwise_cons]
      constructor
      · intro z hz
        rcases (mem_insertByDesc _ x z t).mp hz with hz | hz
        · subst hz
          exact ⟨le_of_lt hlt, fun heq => absurd heq.symm (ne_of_lt hlt)⟩
        · exact hp.1 z hz
      · exact ih hp.2 (fun y hy => hidx y (List.mem_cons_of_mem h hy))

theorem pairwise_sortByDesc :
    ∀ l : List ScoredProperty,
      l.Pairwise (fun a b => generationId a < generationId b) →
      (sortByDesc (fun s => s.match_score) l).Pairwise rankedBefore := by
  intro l
  induction l with
  | nil => intro _; simp [sortByDesc]
  | cons x xs ih =>
    intro hp
    rw [List.pairwise_cons] at hp
    unfold sortByDesc
    exact pairwise_insertByDesc x _ (ih hp.2)
      (fun y hy => hp.1 y ((mem_sortByDesc _ y xs).mp hy))

theorem price_match_score_bounds (predicted_price user_budget : ℚ)
    (hb : 0 < user_budget) :
    ScoringService.calculate_price_match_score predicted_price user_budget ∈
      Set.Icc (0 : ℚ) 100 := by
  unfold ScoringService.calculate_price_match_score
  split
  · exact ⟨by norm_num, by norm_num⟩
  · rename_i hgt
    push_neg at hgt
    constructor
    · exact le_max_left 0 _
    · apply max_le (by norm_num)
      have hpen : 0 ≤ (predicted_price - user_budget) / user_budget * 100 := by
        apply mul_nonneg _ (by norm_num)
        exact div_nonneg (by linarith) (le_of_lt hb)
      linarith

theorem bedroom_score_bounds (property_bedrooms user_min_bedrooms : ℤ)
    (hpb : 1 ≤ property_bedrooms) (hmb : 1 ≤ user_min_bedrooms) :
    ScoringService.calculate_bedroom_score property_bedrooms user_min_bedrooms ∈
      Set.Icc (0 : ℚ) 100 := by
  unfold ScoringService.calculate_bedroom_score
  split
  · exact ⟨by norm_num, by norm_num⟩
  · rename_i hlt
    push_neg at hlt
    have hm : (0 : ℚ) < (user_min_bedrooms : ℚ) := by exact_mod_cast lt_of_lt_of_le one_pos hmb
    constructor
    · apply mul_nonneg _ (by norm_num)
      apply div_nonneg _ (le_of_lt hm)
      exact_mod_cast le_trans zero_le_one hpb
    · have hratio : (property_bedrooms : ℚ) / (user_min_bedrooms : ℚ) ≤ 1 := by
        rw [div_le_one hm]
        exact_mod_cast le_of_lt hlt
      linarith

theorem school_rating_score_bounds (school_rating : ℚ)
    (h0 : 0 ≤ school_rating) (h10 : school_rating ≤ 10) :
    ScoringService.calculate_school_rating_score school_rating ∈
      Set.Icc (0 : ℚ) 100 := by
  unfold ScoringService.calculate_school_rating_score
  have : school_rating / 10 * 100 = 10 * school_rating := by ring
  rw [this]
  exact ⟨by linarith, by linarith⟩

theorem commute_score_bounds (commute_time : ℤ) :
    ScoringService.calculate_commute_score commute_time ∈ Set.Icc (0 : ℚ) 100 := by
  unfold ScoringService.calculate_commute_score
  split
  · exact ⟨by norm_num, by norm_num⟩
  · split
    · exact ⟨by norm_num, by norm_num⟩
    · split
      · exact ⟨by norm_num, by norm_num⟩
      · exact ⟨by norm_num, by norm_num⟩

theorem property_age_score_bounds (year_built current_year : ℤ) :
    ScoringService.calculate_property_age_score year_built current_year ∈
      Set.Icc (0 : ℚ) 100 := by
  unfold ScoringService.calculate_property_age_score
  have h : ∀ a : ℤ,
      (if a ≤ 5 then (100 : ℚ) else if a ≤ 15 then 80 else if a ≤ 30 then 60 else 40) ∈
        Set.Icc (0 : ℚ) 100 := by
    intro a
    split_ifs <;> constructor <;> norm_num
  exact h _

theorem amenities_score_bounds (has_pool has_garage has_garden : Bool) :
    ScoringService.calculate_amenities_score has_pool has_garage has_garden ∈
      Set.Icc (0 : ℚ) 100 := by
  cases has_pool <;> cases has_garage <;> cases has_garden <;>
    simp [ScoringService.calculate_amenities_score] <;> norm_num

/-- Equation: `calculate_match_score` unfolded: the weighted sum of the six component
scores of the extracted field values, rounded to two decimals. -/
theorem calculate_match_score_eq (property : PropertyD) (preferences : Preferences)
    (current_year : ℤ) :
    ScoringService.calculate_match_score property preferences current_year =
      round2 (Config.SCORING_WEIGHTS.price_match *
          ScoringService.calculate_price_match_score (property.predicted_price.getD 0)
            (preferences.budget.getD Config.DEFAULT_BUDGET) +
        Config.SCORING_WEIGHTS.bedroom *
          ScoringService.calculate_bedroom_score (property.bedrooms.getD 0)
            (preferences.min_bedrooms.getD Config.DEFAULT_MIN_BEDROOMS) +
        Config.SCORING_WEIGHTS.school_rating *
          ScoringService.calculate_school_rating_score (property.school_rating.getD 5) +
        Config.SCORING_WEIGHTS.commute *
          ScoringService.calculate_commute_score (property.commute_time.getD 30) +
        Config.SCORING_WEIGHTS.property_age *
          ScoringService.calculate_property_age_score (property.year_built.getD 2000)
            current_year +
        Config.SCORING_WEIGHTS.amenities *
          ScoringService.calculate_amenities_score (property.has_pool.getD false)
            (property.has_garage.getD false) (property.has_garden.getD false)) := rfl

/-- C6: for every `predicted_price` and every `budget > 0`,
`calculate_price_match_score` returns exactly 100 when
`predicted_price ≤ budget`, and otherwise returns
`max(0, 100 − (predicted_price − budget)/budget × 100)`. -/
theorem price_match_score_formula (predicted_price user_budget : ℚ)
    (hb : 0 < user_budget) :
    (predicted_price ≤ user_budget →
      ScoringService.calculate_price_match_score predicted_price user_budget = 100) ∧
    (¬ predicted_price ≤ user_budget →
      ScoringService.calculate_price_match_score predicted_price user_budget =
        max 0 (100 - (predicted_price - user_budget) / user_budget * 100)) := by
  unfold ScoringService.calculate_price_match_score
  constructor
  · intro h; rw [if_pos h]
  · intro h; rw [if_neg h]

theorem price_match_score_formula_witness :
    ScoringService.calculate_price_match_score 400000 500000 = 100 :=
  (price_match_score_formula 400000 500000 (by norm_num)).1 (by norm_num)

/-- C7: `calculate_commute_score` is exactly 100 for `commute_time ≤ 15`,
80 for `16 ≤ commute_time ≤ 30`, 50 for `31 ≤ commute_time ≤ 45`, 20
otherwise; and the boundary values 15→100, 16→80, 30→80, 31→50, 45→50,
46→20 hold exactly. -/
theorem commute_score_boundaries :
    (∀ commute_time : ℤ,
      (commute_time ≤ 15 →
        ScoringService.calculate_commute_score commute_time = 100) ∧
      (16 ≤ commute_time → commute_time ≤ 30 →
        ScoringService.calculate_commute_score commute_time = 80) ∧
      (31 ≤ commute_time → commute_time ≤ 45 →
        ScoringService.calculate_commute_score commute_time = 50) ∧
      (46 ≤ commute_time →
        ScoringService.calculate_commute_score commute_time = 20)) ∧
    ScoringService.calculate_commute_score 15 = 100 ∧
    ScoringService.calculate_commute_score 16 = 80 ∧
    ScoringService.calculate_commute_score 30 = 80 ∧
    ScoringService.calculate_commute_score 31 = 50 ∧
    ScoringService.calculate_commute_score 45 = 50 ∧
    ScoringService.calculate_commute_score 46 = 20 := by
  constructor
  · intro t
    unfold ScoringService.calculate_commute_score
    refine ⟨fun h => if_pos h, fun h1 h2 => ?_, fun h1 h2 => ?_, fun h => ?_⟩
    · rw [if_neg (by omega), if_pos h2]
    · rw [if_neg (by omega), if_neg (by omega), if_pos h2]
    · rw [if_neg (by omega), if_neg (by omega), if_neg (by omega)]
  · refine ⟨by decide, by decide, by decide, by decide, by decide, by decide⟩

theorem commute_score_boundaries_witness :
    ScoringService.calculate_commute_score 10 = 100 :=
  (commute_score_boundaries.1 10).1 (by decide)

/-- C8: for every `property_bedrooms` and `user_min_bedrooms ≥ 1`,
`calculate_bedroom_score` returns exactly 100 when
`property_bedrooms ≥ user_min_bedrooms`, and otherwise
`property_bedrooms/user_min_bedrooms × 100`; bedrooms = 3 with
min_bedrooms = 4 yields exactly 75. -/
theorem bedroom_score_formula (property_bedrooms user_min_bedrooms : ℤ)
    (hmb : 1 ≤ user_min_bedrooms) :
    (user_min_bedrooms ≤ property_bedrooms →
      ScoringService.calculate_bedroom_score property_bedrooms user_min_bedrooms = 100) ∧
    (property_bedrooms < user_min_bedrooms →
      ScoringService.calculate_bedroom_score property_bedrooms user_min_bedrooms =
        (property_bedrooms : ℚ) / (user_min_bedrooms : ℚ) * 100) ∧
    ScoringService.calculate_bedroom_score 3 4 = 75 := by
  unfold ScoringService.calculate_bedroom_score
  refine ⟨fun h => if_pos h, fun h => ?_, ?_⟩
  · rw [if_neg (by omega)]
  · rw [if_neg (by omega)]
    norm_num

theorem bedroom_score_formula_witness :
    ScoringService.calculate_bedroom_score 3 4 = 75 :=
  (bedroom_score_formula 3 4 (by decide)).2.2

/-- C1: for every property whose extracted fields lie in the documented
valid ranges (`predicted_price ≥ 0`, `bedrooms ≥ 1`, `school_rating ∈ [0,10]`,
any `commute_time`, `year_built` and amenity flags) and preferences with
`budget > 0` and `min_bedrooms ≥ 1`, each of the six sub-scores lies in
`[0,100]`, `calculate_match_score` (the 2-decimal rounding of the weighted
combination with the fixed config weights) lies in `[0,100]`, and the config
weights sum to 1. -/
theorem match_score_in_range (property : PropertyD) (preferences : Preferences)
    (current_year : ℤ)
    (hprice : 0 ≤ property.predicted_price.getD 0)
    (hbed : 1 ≤ property.bedrooms.getD 0)
    (hsr0 : 0 ≤ property.school_rating.getD 5)
    (hsr1 : property.school_rating.getD 5 ≤ 10)
    (hbudget : 0 < preferences.budget.getD Config.DEFAULT_BUDGET)
    (hminbed : 1 ≤ preferences.min_bedrooms.getD Config.DEFAULT_MIN_BEDROOMS) :
    ScoringService.calculate_price_match_score (property.predicted_price.getD 0)
        (preferences.budget.getD Config.DEFAULT_BUDGET) ∈ Set.Icc (0 : ℚ) 100 ∧
    ScoringService.calculate_bedroom_score (property.bedrooms.getD 0)
        (preferences.min_bedrooms.getD Config.DEFAULT_MIN_BEDROOMS) ∈
      Set.Icc (0 : ℚ) 100 ∧
    ScoringService.calculate_school_rating_score (property.school_rating.getD 5) ∈
      Set.Icc (0 : ℚ) 100 ∧
    ScoringService.calculate_commute_score (property.commute_time.getD 30) ∈
      Set.Icc (0 : ℚ) 100 ∧
    ScoringService.calculate_property_age_score (property.year_built.getD 2000)
        current_year ∈ Set.Icc (0 : ℚ) 100 ∧
    ScoringService.calculate_amenities_score (property.has_pool.getD false)
        (property.has_garage.getD false) (property.has_garden.getD false) ∈
      Set.Icc (0 : ℚ) 100 ∧
    ScoringService.calculate_match_score property preferences current_year ∈
      Set.Icc (0 : ℚ) 100 ∧
    Config.weightsSum = 1 := by
  have h1 := price_match_score_bounds (property.predicted_price.getD 0)
    (preferences.budget.getD Config.DEFAULT_BUDGET) hbudget
  have h2 := bedroom_score_bounds (property.bedrooms.getD 0)
    (preferences.min_bedrooms.getD Config.DEFAULT_MIN_BEDROOMS) hbed hminbed
  have h3 := school_rating_score_bounds (property.school_rating.getD 5) hsr0 hsr1
  have h4 := commute_score_bounds (property.commute_time.getD 30)
  have h5 := property_age_score_bounds (property.year_built.getD 2000) current_year
  have h6 := amenities_score_bounds (property.has_pool.getD false)
    (property.has_garage.getD false) (property.has_garden.getD false)
  refine ⟨h1, h2, h3, h4, h5, h6, ?_,
    by norm_num [Config.weightsSum, Config.SCORING_WEIGHTS]⟩
  obtain ⟨h1a, h1b⟩ := Set.mem_Icc.mp h1
  obtain ⟨h2a, h2b⟩ := Set.mem_Icc.mp h2
  obtain ⟨h3a, h3b⟩ := Set.mem_Icc.mp h3
  obtain ⟨h4a, h4b⟩ := Set.mem_Icc.mp h4
  obtain ⟨h5a, h5b⟩ := Set.mem_Icc.mp h5
  obtain ⟨h6a, h6b⟩ := Set.mem_Icc.mp h6
  rw [calculate_match_score_eq]
  have e1 : Config.SCORING_WEIGHTS.price_match = 0.3 := rfl
  have e2 : Config.SCORING_WEIGHTS.bedroom = 0.2 := rfl
  have e3 : Config.SCORING_WEIGHTS.school_rating = 0.15 := rfl
  have e4 : Config.SCORING_WEIGHTS.commute = 0.15 := rfl
  have e5 : Config.SCORING_WEIGHTS.property_age = 0.1 := rfl
  have e6 : Config.SCORING_WEIGHTS.amenities = 0.1 := rfl
  rw [e1, e2, e3, e4, e5, e6]
  rw [Set.mem_Icc]
  apply round2_mem_Icc
  · linarith
  · linarith

theorem match_score_in_range_witness :
    ScoringService.calculate_match_score
        { predicted_price := some 400000, bedrooms := some 3,
          school_rating := some 8, commute_time := some 20,
          year_built := some 2010, has_pool := some true }
        { budget := some 500000, min_bedrooms := some 2 } 2025 ∈
      Set.Icc (0 : ℚ) 100 :=
  (match_score_in_range
    { predicted_price := some 400000, bedrooms := some 3,
      school_rating := some 8, commute_time := some 20,
      year_built := some 2010, has_pool := some true }
    { budget := some 500000, min_bedrooms := some 2 } 2025
    (by norm_num) (by norm_num) (by norm_num) (by norm_num)
    (by norm_num) (by norm_num)).2.2.2.2.2.2.1

/-- C2: `predict_fallback` computes
`200000 + bedrooms*50000 + bathrooms*30000 + (square_feet-1500)*100`,
multiplies by `1 + (zip_code mod 100)/1000` only when `zip_code ≠ 0`,
multiplies by the noise factor `0.9 + random_sample * 0.2`, and floors the
result at 50000; with the noise factor fixed at 1 (sample 1/2 of the
uniform(0.9, 1.1) multiplier), the input
`{bedrooms = 3, bathrooms = 2, square_feet = 1500, zip_code = 0}`
yields exactly 410000. -/
theorem predict_fallback_formula :
    (∀ (self : PricePredictor) (bedrooms bathrooms square_feet zip_code : ℤ)
        (random_sample : ℚ),
      self.predict_fallback
          { bedrooms := some bedrooms, bathrooms := some bathrooms,
            square_feet := some square_feet, zip_code := some zip_code }
          random_sample =
        max ((200000 + (bedrooms : ℚ) * 50000 + (bathrooms : ℚ) * 30000 +
              ((square_feet : ℚ) - 1500) * 100) *
            (if zip_code ≠ 0 then 1 + ((zip_code % 100 : ℤ) : ℚ) / 1000 else 1) *
            (0.9 + random_sample * 0.2)) 50000) ∧
    ∀ self : PricePredictor,
      self.predict_fallback
        { bedrooms := some 3, bathrooms := some 2, square_feet := some 1500,
          zip_code := some 0 } (1/2) = 410000 := by
  constructor
  · intro self b ba s z r
    unfold PricePredictor.predict_fallback
    simp only [Option.getD_some]
    split_ifs with hz <;> (congr 1 <;> try ring)
  · intro self
    unfold PricePredictor.predict_fallback
    simp only [Option.getD_some]
    norm_num

/-- C5: when the loaded model's predict call raises (returns an exception)
for a property, `predict` returns the heuristic fallback result for that
call instead of propagating the error, and the `model_loaded` flag reported
to callers as `model_used` is unaffected. -/
theorem predict_model_error_falls_back
    (m : List ℚ → Except String ℚ) (property_data : PropertyD)
    (random_sample : ℚ) (e : String)
    (herr : m (PricePredictor.features property_data) = Except.error e) :
    PricePredictor.predict ⟨some m, true⟩ property_data random_sample =
      PricePredictor.predict_fallback ⟨some m, true⟩ property_data random_sample ∧
    ∀ (preferences : Preferences) (property_count num_recommendations : Option ℕ)
      (draw : ℕ → PropertyD) (rs : ℕ → ℚ) (current_year : ℤ),
      (RecommendationService.get_recommendations preferences property_count
          num_recommendations draw ⟨some m, true⟩ rs current_year).model_used =
        true := by
  constructor
  · unfold PricePredictor.predict
    simp [herr]
  · intro _ _ _ _ _ _
    rfl

theorem predict_model_error_falls_back_witness :
    PricePredictor.predict ⟨some (fun _ => Except.error "boom"), true⟩ {} 0 =
      PricePredictor.predict_fallback
        ⟨some (fun _ => Except.error "boom"), true⟩ {} 0 :=
  (predict_model_error_falls_back (fun _ => Except.error "boom") {} 0 "boom" rfl).1

/-- C4: `get_recommendations` returns exactly
`min(num_recommendations, property_count)` recommendations and reports
`total_properties_evaluated = property_count`, independent of truncation;
in particular `property_count = 20`, `num_recommendations = 3` yields
exactly 3 results and `total_properties_evaluated = 20`. -/
theorem recommendations_count
    (preferences : Preferences) (property_count num_recommendations : ℕ)
    (draw : ℕ → PropertyD) (price_predictor : PricePredictor)
    (random_sample : ℕ → ℚ) (current_year : ℤ) :
    (RecommendationService.get_recommendations preferences (some property_count)
        (some num_recommendations) draw price_predictor random_sample
        current_year).recommendations.length =
      min num_recommendations property_count ∧
    (RecommendationService.get_recommendations preferences (some property_count)
        (some num_recommendations) draw price_predictor random_sample
        current_year).total_properties_evaluated = property_count ∧
    (RecommendationService.get_recommendations preferences (some 20) (some 3)
        draw price_predictor random_sample
        current_year).recommendations.length = 3 ∧
    (RecommendationService.get_recommendations preferences (some 20) (some 3)
        draw price_predictor random_sample
        current_year).total_properties_evaluated = 20 := by
  have hlen : ∀ pc n : ℕ,
      (RecommendationService.get_recommendations preferences (some pc) (some n)
          draw price_predictor random_sample current_year).recommendations.length =
        min n pc := by
    intro pc n
    show ((sortByDesc _ _).take n).length = min n pc
    rw [List.length_take, length_sortByDesc, List.length_map,
      PropertyService.generate_properties, List.length_map, List.length_range]
    rfl
  have htot : ∀ pc n : ℕ,
      (RecommendationService.get_recommendations preferences (some pc) (some n)
          draw price_predictor random_sample
          current_year).total_properties_evaluated = pc := by
    intro pc n
    show ((PropertyService.generate_properties pc draw price_predictor
      random_sample)).length = pc
    rw [PropertyService.generate_properties, List.length_map, List.length_range]
  exact ⟨hlen property_count num_recommendations, htot property_count num_recommendations,
    hlen 20 3, htot 20 3⟩

theorem pairwise_generationId_map (count : ℕ) (h : ℕ → ScoredProperty)
    (hh : ∀ i, generationId (h i) = (i : ℤ) + 1) :
    ((List.range count).map h).Pairwise
      (fun a b => generationId a < generationId b) := by
  rw [List.pairwise_map]
  apply List.Pairwise.imp _ (List.pairwise_lt_range count)
  intro i j hij
  rw [hh, hh]
  exact_mod_cast Nat.add_lt_add_right hij 1

/-- C3: for every preferences dictionary and every generated batch, the
recommendations list returned by `get_recommendations` is sorted
non-increasing by `match_score`, and properties with equal `match_score`
appear in their original generation order — captured by their 1-based
generation ids (`generationId`) being strictly increasing among ties. -/
theorem recommendations_sorted_stable (preferences : Preferences)
    (property_count num_recommendations : Option ℕ) (draw : ℕ → PropertyD)
    (price_predictor : PricePredictor) (random_sample : ℕ → ℚ)
    (current_year : ℤ) :
    (RecommendationService.get_recommendations preferences property_count
        num_recommendations draw price_predictor random_sample
        current_year).recommendations.Pairwise rankedBefore := by
  apply List.Pairwise.sublist (List.take_sublist _ _)
  apply pairwise_sortByDesc
  show (((List.range (property_count.getD Config.DEFAULT_PROPERTY_COUNT)).map _).map _).Pairwise _
  rw [List.map_map]
  apply pairwise_generationId_map
  intro i
  rfl

/-- C9 counterexample: `calculate_match_score` and `generate_reasoning` are
not functions of (property, preferences) alone — both read the clock
(`datetime.now().year`): with the same property `{year_built: 2020}` and the
same (empty) preferences, the results at clock year 2025 and clock year 2040
differ. -/
theorem scoring_clock_counterexample :
    ScoringService.calculate_match_score { year_built := some 2020 } {} 2025 ≠
      ScoringService.calculate_match_score { year_built := some 2020 } {} 2040 ∧
    ScoringService.generate_reasoning { year_built := some 2020 } {} 0 2025 ≠
      ScoringService.generate_reasoning { year_built := some 2020 } {} 0 2040 := by
  constructor
  · have h1 : ScoringService.calculate_match_score
        { year_built := some 2020 } {} 2025 = 59.5 := by
      rw [calculate_match_score_eq]
      norm_num [ScoringService.calculate_price_match_score,
        ScoringService.calculate_bedroom_score,
        ScoringService.calculate_school_rating_score,
        ScoringService.calculate_commute_score,
        ScoringService.calculate_property_age_score,
        ScoringService.calculate_amenities_score,
        Config.SCORING_WEIGHTS, Config.DEFAULT_BUDGET, Config.DEFAULT_MIN_BEDROOMS,
        Option.getD, round2, pyRound]
    have h2 : ScoringService.calculate_match_score
        { year_built := some 2020 } {} 2040 = 55.5 := by
      rw [calculate_match_score_eq]
      norm_num [ScoringService.calculate_price_match_score,
        ScoringService.calculate_bedroom_score,
        ScoringService.calculate_school_rating_score,
        ScoringService.calculate_commute_score,
        ScoringService.calculate_property_age_score,
        ScoringService.calculate_amenities_score,
        Config.SCORING_WEIGHTS, Config.DEFAULT_BUDGET, Config.DEFAULT_MIN_BEDROOMS,
        Option.getD, round2, pyRound]
    rw [h1, h2]
    norm_num
  · have h1 : ScoringService.generate_reasoning
        { year_built := some 2020 } {} 0 2025 =
        [Clause.excellentValue 0 500000, Clause.reasonableCommute 30,
         Clause.recentlyBuilt 2020] := by
      norm_num [ScoringService.generate_reasoning, Option.getD,
        Config.DEFAULT_BUDGET, Config.DEFAULT_MIN_BEDROOMS]
    have h2 : ScoringService.generate_reasoning
        { year_built := some 2020 } {} 0 2040 =
        [Clause.excellentValue 0 500000, Clause.reasonableCommute 30,
         Clause.establishedProperty 2020] := by
      norm_num [ScoringService.generate_reasoning, Option.getD,
        Config.DEFAULT_BUDGET, Config.DEFAULT_MIN_BEDROOMS]
    rw [h1, h2]
    simp

/-- C9 (amended): scoring is a pure function of (Property, Preferences,
current clock year): at a fixed clock year, `calculate_match_score` depends
only on the eight property fields it reads and the preferences, and
`generate_reasoning` additionally only on `city`/`state` and not on the
`score` argument it is passed; two invocations on equal such inputs return
equal results. -/
theorem scoring_pure_given_clock (p1 p2 : PropertyD) (preferences : Preferences)
    (s1 s2 : ℚ) (current_year : ℤ)
    (hpp : p1.predicted_price = p2.predicted_price)
    (hbed : p1.bedrooms = p2.bedrooms)
    (hsr : p1.school_rating = p2.school_rating)
    (hct : p1.commute_time = p2.commute_time)
    (hyb : p1.year_built = p2.year_built)
    (hhp : p1.has_pool = p2.has_pool)
    (hhg : p1.has_garage = p2.has_garage)
    (hhd : p1.has_garden = p2.has_garden) :
    ScoringService.calculate_match_score p1 preferences current_year =
      ScoringService.calculate_match_score p2 preferences current_year ∧
    (p1.city = p2.city → p1.state = p2.state →
      ScoringService.generate_reasoning p1 preferences s1 current_year =
        ScoringService.generate_reasoning p2 preferences s2 current_year) := by
  constructor
  · rw [calculate_match_score_eq, calculate_match_score_eq,
      hpp, hbed, hsr, hct, hyb, hhp, hhg, hhd]
  · intro hc hs
    unfold ScoringService.generate_reasoning
    rw [hpp, hbed, hsr, hct, hyb, hhp, hhg, hhd, hc, hs]

theorem scoring_pure_given_clock_witness :
    ScoringService.calculate_match_score {} {} 2025 =
      ScoringService.calculate_match_score {} {} 2025 ∧
    ScoringService.generate_reasoning {} {} 0 2025 =
      ScoringService.generate_reasoning {} {} 5 2025 :=
  ⟨(scoring_pure_given_clock {} {} {} 0 5 2025
      rfl rfl rfl rfl rfl rfl rfl rfl).1,
   (scoring_pure_given_clock {} {} {} 0 5 2025
      rfl rfl rfl rfl rfl rfl rfl rfl).2 rfl rfl⟩

/-- C10: with `budget = 0` in the preferences and a property whose
`predicted_price` is positive, the division by `user_budget` in
`calculate_price_match_score` has a zero divisor (guarded only by the
`predicted_price ≤ budget` comparison), so `calculate_match_score` raises
`ZeroDivisionError` there (checked embedding returns `none`); the error
branch of the price sub-score is unreachable when `budget > 0`. -/
theorem match_score_zero_budget_division (property : PropertyD)
    (preferences : Preferences) (current_year : ℤ)
    (hb : preferences.budget = some 0)
    (hp : 0 < property.predicted_price.getD 0) :
    ScoringService.calculate_match_scoreE property preferences current_year = none ∧
    ∀ predicted_price user_budget : ℚ, 0 < user_budget →
      (ScoringService.calculate_price_match_scoreE
        predicted_price user_budget).isSome = true := by
  constructor
  · have hz : ScoringService.calculate_price_match_scoreE
        (property.predicted_price.getD 0)
        (preferences.budget.getD Config.DEFAULT_BUDGET) = none := by
      rw [hb]
      unfold ScoringService.calculate_price_match_scoreE
      rw [if_neg, if_pos]
      · rfl
      · exact not_le.mpr hp
    simp [ScoringService.calculate_match_scoreE, hz]
  · intro pp b hb0
    unfold ScoringService.calculate_price_match_scoreE
    split_ifs with h1 h2
    · rfl
    · exact absurd h2 (ne_of_gt hb0)
    · rfl

theorem match_score_zero_budget_division_witness :
    ScoringService.calculate_match_scoreE { predicted_price := some 1 }
        { budget := some 0 } 2025 = none :=
  (match_score_zero_budget_division { predicted_price := some 1 }
    { budget := some 0 } 2025 rfl (by norm_num)).1

theorem predict_fallback_formula_witness :
    PricePredictor.predict_fallback ⟨none, false⟩
      { bedrooms := some 3, bathrooms := some 2, square_feet := some 1500,
        zip_code := some 0 } (1/2) = 410000 :=
  predict_fallback_formula.2 ⟨none, false⟩

theorem recommendations_sorted_stable_witness :
    (RecommendationService.get_recommendations {} (some 2) (some 2)
        (fun _ => {}) ⟨none, false⟩ (fun _ => 0) 2025).recommendations.Pairwise
      rankedBefore :=
  recommendations_sorted_stable {} (some 2) (some 2)
    (fun _ => {}) ⟨none, false⟩ (fun _ => 0) 2025

theorem recommendations_count_witness :
    (RecommendationService.get_recommendations {} (some 20) (some 3)
        (fun _ => {}) ⟨none, false⟩ (fun _ => 0) 2025).recommendations.length = 3 ∧
    (RecommendationService.get_recommendations {} (some 20) (some 3)
        (fun _ => {}) ⟨none, false⟩ (fun _ => 0) 2025).total_properties_evaluated =
      20 :=
  ⟨(recommendations_count {} 20 3 (fun _ => {}) ⟨none, false⟩ (fun _ => 0) 2025).2.2.1,
   (recommendations_count {} 20 3 (fun _ => {}) ⟨none, false⟩ (fun _ => 0) 2025).2.2.2⟩
